import Mathlib

/-!
Verification development for the "Compare-Company-Returns" dashboard
(`src/app.py`): a Streamlit app that, for a list of user-entered tickers,
fetches adjusted closing prices from yfinance, reports the annualized average
log-return and a regression beta against the SPY benchmark, and draws a chart.

Shallow embedding conventions:
* Prices are real numbers (idealizing Python floats); dates are naturals.
  A fetched series is a `List (Nat × ℝ)` of (date, adjusted close) rows.
* The external data source (yfinance under the session's selected period) is a
  function `DataSource` from ticker to a `DownloadResult`: either the download
  raises, or it returns a data frame, modelled by its rows and whether the
  frame has an `Adj Close` column.  The frame is empty iff its row list is.
* Side effects (network calls made, `st.error` messages shown) are returned
  explicitly in an `Eff` record alongside each function's value.
* Pandas `NaN` arising from the mean of an empty series is modelled by
  `Option ℝ` (`none` = NaN); Python `None` is the outer `Option`.
  The model assumes positive prices, under which `.dropna()` after
  `log(p / p.shift(1))` discards exactly the first (undefined) entry.
* `np.polyfit(x, y, 1)` raises on an empty or length-mismatched input and
  otherwise (for non-degenerate x) returns the ordinary-least-squares slope.
-/

/-- A fetched price series: (date, adjusted close) rows in date order. -/
abbrev PriceSeries := List (Nat × ℝ)

/-- Outcome of one `yf.download(ticker, period=selected_time_period)` call:
either the call raises, or it yields a frame with the given rows, which has an
`Adj Close` column iff `hasAdjClose`.  The frame is empty iff `rows = []`. -/
inductive DownloadResult where
  | raises : DownloadResult
  | frame (rows : PriceSeries) (hasAdjClose : Bool) : DownloadResult

/-- The state of the external market-data provider for the session:
what each ticker's download would produce. -/
abbrev DataSource := String → DownloadResult

/-- A value together with the side effects produced while computing it:
the network download calls made (by ticker) and the `st.error` messages shown. -/
structure Eff (α : Type) where
  val : α
  calls : List String
  msgs : List String

/-- `get_historical_data` (src/app.py lines 27-42): empty ticker returns
`None` silently with no download; otherwise one download is made and the
result is the `Adj Close` series, or `None` with a per-ticker error message
when the frame is empty, the column is missing, or the download raises. -/
def get_historical_data (ds : DataSource) (ticker : String) :
    Eff (Option PriceSeries) :=
  if ticker = "" then ⟨none, [], []⟩
  else
    match ds ticker with
    | .raises =>
        ⟨none, [ticker],
          ["An error occurred while fetching data for " ++ ticker]⟩
    | .frame rows hasAdjClose =>
        if rows.isEmpty then
          ⟨none, [ticker],
            ["No data available for " ++ ticker ++ ". Please enter a valid ticker."]⟩
        else if hasAdjClose then
          ⟨some rows, [ticker], []⟩
        else
          ⟨none, [ticker], ["Data for " ++ ticker ++ " is not available."]⟩

/-- Consecutive log-returns of a price list:
`np.log(closing_prices / closing_prices.shift(1)).dropna()` for positive
prices, i.e. `ln(p[t] / p[t-1])` for `t = 1 .. n-1`. -/
noncomputable def logReturns (prices : List ℝ) : List ℝ :=
  (prices.zip prices.tail).map (fun pr => Real.log (pr.2 / pr.1))

/-- Pandas `Series.mean()`: `NaN` (here `none`) on an empty series,
otherwise the arithmetic mean. -/
noncomputable def seriesMean (l : List ℝ) : Option ℝ :=
  match l with
  | [] => none
  | _ => some (l.sum / l.length)

/-- `calculate_average_annual_return` (src/app.py lines 44-51): fetch, and on
`None` propagate `None`; otherwise mean daily log-return × 252 × 100.
The inner `Option ℝ` is the float result, `none` standing for `NaN`. -/
noncomputable def calculate_average_annual_return (ds : DataSource)
    (ticker2 : String) : Eff (Option (Option ℝ)) :=
  let g := get_historical_data ds ticker2
  match g.val with
  | none => ⟨none, g.calls, g.msgs⟩
  | some closing_prices =>
      ⟨some ((seriesMean (logReturns (closing_prices.map Prod.snd))).map
          (fun m => m * 252 * 100)),
        g.calls, g.msgs⟩

/-- Inner join of two date-indexed series on date, keeping the left order:
`pd.merge(stock_data, spy_data, how=..., left_index=True, right_index=True)`
with `how='inner'`, for series with unique dates.  Each output row is
(date, (left value, right value)). -/
def mergeInner (s b : PriceSeries) : List (Nat × (ℝ × ℝ)) :=
  s.filterMap (fun row => (b.lookup row.1).map (fun q => (row.1, (row.2, q))))

/-- Sum of pairwise products `Σ xᵢ·yᵢ`. -/
noncomputable def sumProd (x y : List ℝ) : ℝ :=
  ((x.zip y).map (fun p => p.1 * p.2)).sum

/-- Denominator `n·Σx² − (Σx)²` of the ordinary-least-squares slope. -/
noncomputable def olsDenom (x : List ℝ) : ℝ :=
  (x.length : ℝ) * ((x.map (fun v => v * v)).sum) - x.sum * x.sum

/-- Ordinary-least-squares slope of y against x:
`(n·Σxy − Σx·Σy) / (n·Σx² − (Σx)²)`. -/
noncomputable def olsSlope (x y : List ℝ) : ℝ :=
  ((x.length : ℝ) * sumProd x y - x.sum * y.sum) / olsDenom x

/-- `np.polyfit(x, y, 1)`, slope only: raises (`.error`) on an empty `x` or
mismatched lengths; otherwise the least-squares slope (for non-degenerate x,
which is the only regime the claims touch). -/
noncomputable def polyfit1 (x y : List ℝ) : Except Unit ℝ :=
  if x.length = 0 ∨ x.length ≠ y.length then .error ()
  else .ok (olsSlope x y)

/-- `calculate_beta` (src/app.py lines 74-99).  `SPY` short-circuits to 1.00
with no fetch.  Otherwise: fetch the stock via `get_historical_data`; fetch
SPY directly with `yf.download(...)['Adj Close']` (a raise or a missing
column is an exception swallowed by the surrounding `try`, an empty frame is
reported with the SPY-specific message); inner-join, take log-returns of both
columns, and regress.  A `polyfit` failure is caught by the `try` and
reported with the generic per-ticker beta message. -/
noncomputable def calculate_beta (ds : DataSource) (ticker : String) :
    Eff (Option ℝ) :=
  if ticker = "SPY" then ⟨some 1.00, [], []⟩
  else
    let g := get_historical_data ds ticker
    match g.val with
    | none => ⟨none, g.calls, g.msgs⟩
    | some stock_data =>
        match ds "SPY" with
        | .raises =>
            ⟨none, g.calls ++ ["SPY"],
              g.msgs ++ ["An error occurred while calculating beta for " ++ ticker]⟩
        | .frame rows hasAdjClose =>
            if hasAdjClose then
              if rows.isEmpty then
                ⟨none, g.calls ++ ["SPY"],
                  g.msgs ++
                    ["No data available for SPY. Please check your internet connection."]⟩
              else
                let merged := mergeInner stock_data rows
                let log_returns_stock := logReturns (merged.map (fun r => r.2.1))
                let log_returns_spy := logReturns (merged.map (fun r => r.2.2))
                match polyfit1 log_returns_spy log_returns_stock with
                | .error _ =>
                    ⟨none, g.calls ++ ["SPY"],
                      g.msgs ++
                        ["An error occurred while calculating beta for " ++ ticker]⟩
                | .ok slope => ⟨some slope, g.calls ++ ["SPY"], g.msgs⟩
            else
              ⟨none, g.calls ++ ["SPY"],
                g.msgs ++ ["An error occurred while calculating beta for " ++ ticker]⟩

/-- `visualize_returns` (src/app.py lines 55-71): re-fetch every ticker and
add one line trace per ticker whose data is present.  The value is the list
of tickers actually drawn. -/
noncomputable def visualize_returns (ds : DataSource) (tickers : List String) :
    Eff (List String) :=
  tickers.foldl
    (fun acc t =>
      let g := get_historical_data ds t
      match g.val with
      | some _ => ⟨acc.val ++ [t], acc.calls ++ g.calls, acc.msgs ++ g.msgs⟩
      | none => ⟨acc.val, acc.calls ++ g.calls, acc.msgs ++ g.msgs⟩)
    ⟨[], [], []⟩

/-- The dynamic ticker-input loop (src/app.py lines 102-107): the entered
tickers are the longest prefix of non-empty slot contents; the first blank
slot stops collection. -/
def collectTickers (inputs : List String) : List String :=
  inputs.takeWhile (fun t => t ≠ "")

/-- Aggregate state of one full top-to-bottom run of the module-level code. -/
structure RunResult where
  validTickers : List String
  individualReturns : List (Option ℝ)
  individualBetas : List ℝ
  calls : List String
  errorMsgs : List String
  writes : List String
  chart : Option (List String)

/-- One iteration of the module-level `for ticker in tickers` loop
(src/app.py lines 114-128).  `NaN` annual returns (inner `none`) still count
as "not None", so their ticker enters `valid_tickers`.  The beta display line
is modelled without its 2-decimal number formatting. -/
noncomputable def processTicker (ds : DataSource) (acc : RunResult)
    (ticker : String) : RunResult :=
  let r := calculate_average_annual_return ds ticker
  let b := calculate_beta ds ticker
  let acc1 : RunResult :=
    { acc with
      calls := acc.calls ++ r.calls ++ b.calls
      errorMsgs := acc.errorMsgs ++ r.msgs ++ b.msgs }
  let acc2 : RunResult :=
    match r.val with
    | some ret =>
        { acc1 with
          individualReturns := acc1.individualReturns ++ [ret]
          validTickers := acc1.validTickers ++ [ticker] }
    | none => acc1
  match b.val with
  | some beta =>
      if ticker ≠ "SPY" then
        { acc2 with
          individualBetas := acc2.individualBetas ++ [beta]
          writes := acc2.writes ++ ["Beta for " ++ ticker ++ " is: "] }
      else
        { acc2 with writes := acc2.writes ++ ["Beta for SPY is 1.00"] }
  | none => { acc2 with writes := acc2.writes ++ [""] }

/-- Python truthiness of the chart dispatch condition
`individual_betas or "SPY" in valid_tickers` (src/app.py line 131). -/
def chartCond (betas : List ℝ) (valid : List String) : Bool :=
  !betas.isEmpty || valid.contains "SPY"

/-- One full run of the module-level code: collect tickers, process each in
order, then either draw the chart over the valid tickers or show the
"no valid tickers" message.  `chart = some ts` means the chart was rendered
over `ts`; `chart = none` means the empty-state message was written. -/
noncomputable def runApp (ds : DataSource) (inputs : List String) : RunResult :=
  let tickers := collectTickers inputs
  let r := tickers.foldl (processTicker ds)
    ⟨[], [], [], [], [], [], none⟩
  if chartCond r.individualBetas r.validTickers then
    let v := visualize_returns ds r.validTickers
    { r with
      calls := r.calls ++ v.calls
      errorMsgs := r.errorMsgs ++ v.msgs
      chart := some r.validTickers }
  else
    { r with
      writes := r.writes ++
        ["No valid tickers entered. Please enter at least one valid ticker."]
      chart := none }

/-! Concrete data sources used to witness the theorems below. -/

/-- A provider with a two-point AAPL series and nothing else. -/
def dsA : DataSource := fun t =>
  if t = "AAPL" then .frame [(0, 1), (1, 2)] true else .raises

/-- A provider with a one-point AAPL series. -/
def dsB : DataSource := fun t =>
  if t = "AAPL" then .frame [(0, 5)] true else .raises

/-- A provider with three-point AAPL and SPY series on the same dates. -/
def dsX5 : DataSource := fun t =>
  if t = "AAPL" then .frame [(0, 2), (1, 4), (2, 8)] true
  else if t = "SPY" then .frame [(0, 10), (1, 11), (2, 12)] true
  else .raises

/-- A provider for which every download raises. -/
def dsX9 : DataSource := fun _ => .raises

/-- A three-point price series with one up-move and one down-move, so its
log-returns are `[1, -1]` and their OLS denominator is nonzero. -/
noncomputable def sE : PriceSeries := [(0, 1), (1, Real.exp 1), (2, 1)]

/-- A provider serving the varying series `sE` for both AAPL and SPY. -/
noncomputable def dsE : DataSource := fun t =>
  if t = "AAPL" then .frame sE true
  else if t = "SPY" then .frame sE true
  else .raises

/-- A constant three-point price series. -/
def sConst : PriceSeries := [(0, 5), (1, 5), (2, 5)]

/-- A provider with a constant AAPL series and the varying SPY series. -/
noncomputable def dsK : DataSource := fun t =>
  if t = "AAPL" then .frame sConst true
  else if t = "SPY" then .frame sE true
  else .raises

/-- A provider whose AAPL and SPY series share no date. -/
def dsD : DataSource := fun t =>
  if t = "AAPL" then .frame [(0, 1), (1, 2)] true
  else if t = "SPY" then .frame [(5, 3), (6, 4)] true
  else .raises

/-- A stock series for the join example: dates 0, 1, 5. -/
def s6 : PriceSeries := [(0, 1), (1, 2), (5, 3)]

/-- A benchmark series for the join example: dates 1, 5, 7. -/
def b6 : PriceSeries := [(1, 4), (5, 6), (7, 8)]

/-! Basic lemmas about `logReturns` and `seriesMean`. -/

lemma logReturns_nil : logReturns [] = [] := rfl

lemma logReturns_singleton (a : ℝ) : logReturns [a] = [] := rfl

lemma logReturns_cons₂ (a b : ℝ) (l : List ℝ) :
    logReturns (a :: b :: l) = Real.log (b / a) :: logReturns (b :: l) := rfl

lemma logReturns_length (p : List ℝ) :
    (logReturns p).length = p.length - 1 := by
  induction p with
  | nil => rfl
  | cons a t ih =>
    cases t with
    | nil => rfl
    | cons b l =>
      rw [logReturns_cons₂]
      simp only [List.length_cons] at ih ⊢
      omega

lemma logReturns_eq_map_range (p : List ℝ) :
    logReturns p = (List.range (p.length - 1)).map
      (fun i => Real.log (p.getD (i + 1) 0 / p.getD i 0)) := by
  induction p with
  | nil => rfl
  | cons a t ih =>
    cases t with
    | nil => rfl
    | cons b l =>
      rw [logReturns_cons₂, ih]
      have hlen : (a :: b :: l).length - 1 = ((b :: l).length - 1) + 1 := by simp
      rw [hlen, List.range_succ_eq_map, List.map_cons, List.map_map]
      congr 1

lemma seriesMean_of_ne_nil (l : List ℝ) (h : l ≠ []) :
    seriesMean l = some (l.sum / l.length) := by
  cases l with
  | nil => exact absurd rfl h
  | cons a t => rfl

lemma get_historical_data_ok (ds : DataSource) (t : String) (s : PriceSeries)
    (hne : t ≠ "") (hds : ds t = .frame s true) (hse : s.isEmpty = false) :
    get_historical_data ds t = ⟨some s, [t], []⟩ := by
  simp [get_historical_data, hne, hds, hse]

lemma calculate_average_annual_return_ok (ds : DataSource) (t : String)
    (s : PriceSeries) (hne : t ≠ "") (hds : ds t = .frame s true)
    (hse : s.isEmpty = false) :
    (calculate_average_annual_return ds t).val =
      some ((seriesMean (logReturns (s.map Prod.snd))).map
        (fun m => m * 252 * 100)) := by
  simp [calculate_average_annual_return, get_historical_data_ok ds t s hne hds hse]

/-- Claim C1: for a ticker equal to the benchmark symbol "SPY",
`calculate_beta` returns exactly 1.00 with no network fetch and no error
message, whatever the state of the data source. -/
theorem c1_benchmark_beta_shortcut (ds : DataSource) :
    (calculate_beta ds "SPY").val = some 1.00 ∧
    (calculate_beta ds "SPY").calls = [] ∧
    (calculate_beta ds "SPY").msgs = [] :=
  ⟨rfl, rfl, rfl⟩

/-- Claim C2: when the fetch yields a price series of length at least 2,
`calculate_average_annual_return` returns the arithmetic mean of the
consecutive log-returns `ln(p[t]/p[t-1])`, `t = 1..n-1`, times 252, times
100; when the fetch is unavailable it returns `None`. -/
theorem c2_average_annual_return_formula (ds : DataSource) (t : String)
    (s : PriceSeries) (hne : t ≠ "") (hds : ds t = .frame s true)
    (hlen : 2 ≤ s.length) :
    (calculate_average_annual_return ds t).val =
      some (some ((((List.range (s.length - 1)).map
        (fun i => Real.log ((s.map Prod.snd).getD (i + 1) 0 /
          (s.map Prod.snd).getD i 0))).sum / ((s.length - 1 : ℕ) : ℝ))
        * 252 * 100)) ∧
    (∀ ds2 t2, (get_historical_data ds2 t2).val = none →
      (calculate_average_annual_return ds2 t2).val = none) := by
  constructor
  · have hse : s.isEmpty = false := by
      cases s with
      | nil => simp at hlen
      | cons a t2 => rfl
    have hlr : logReturns (s.map Prod.snd) ≠ [] := by
      intro h
      have := logReturns_length (s.map Prod.snd)
      rw [h] at this
      simp at this
      omega
    rw [calculate_average_annual_return_ok ds t s hne hds hse,
      seriesMean_of_ne_nil _ hlr, logReturns_length, logReturns_eq_map_range]
    simp
  · intro ds2 t2 h
    simp [calculate_average_annual_return, h]

/-- Witness for C2 at a concrete provider and series. -/
theorem c2_witness :
    (("AAPL" : String) ≠ "" ∧ dsA "AAPL" = .frame [(0, 1), (1, 2)] true ∧
      2 ≤ ([(0, 1), (1, 2)] : PriceSeries).length) ∧
    (calculate_average_annual_return dsA "AAPL").val =
      some (some ((((List.range (([(0, 1), (1, 2)] : PriceSeries).length - 1)).map
        (fun i => Real.log ((([(0, 1), (1, 2)] : PriceSeries).map Prod.snd).getD (i + 1) 0 /
          (([(0, 1), (1, 2)] : PriceSeries).map Prod.snd).getD i 0))).sum /
        ((([(0, 1), (1, 2)] : PriceSeries).length - 1 : ℕ) : ℝ)) * 252 * 100)) :=
  ⟨⟨by decide, rfl, by decide⟩,
    (c2_average_annual_return_formula dsA "AAPL" [(0, 1), (1, 2)]
      (by decide) rfl (by decide)).1⟩

/-- Claim C3: a fetched series of length exactly 1 has an empty log-return
set; the function still returns normally, with the absent numeric value
(pandas `NaN`, modelled by the inner `none`) rather than crashing. -/
theorem c3_length_one_series_absent (ds : DataSource) (t : String)
    (s : PriceSeries) (hne : t ≠ "") (hds : ds t = .frame s true)
    (hlen : s.length = 1) :
    (calculate_average_annual_return ds t).val = some none := by
  obtain ⟨a, rfl⟩ : ∃ a, s = [a] := by
    cases s with
    | nil => simp at hlen
    | cons x t2 =>
      cases t2 with
      | nil => exact ⟨x, rfl⟩
      | cons y t3 => simp at hlen
  rw [calculate_average_annual_return_ok ds t [a] hne hds rfl]
  simp [logReturns, seriesMean]

/-- Witness for C3 at a concrete one-point series. -/
theorem c3_witness :
    (("AAPL" : String) ≠ "" ∧ dsB "AAPL" = .frame [(0, 5)] true ∧
      ([(0, 5)] : PriceSeries).length = 1) ∧
    (calculate_average_annual_return dsB "AAPL").val = some none :=
  ⟨⟨by decide, rfl, rfl⟩,
    c3_length_one_series_absent dsB "AAPL" [(0, 5)] (by decide) rfl rfl⟩

/-- Claim C4: `get_historical_data` returns the series exactly when the
ticker is non-empty and the download yields a non-empty frame with the
`Adj Close` column; an empty ticker gives `None` silently with no download;
every other failure (raise, empty result, missing column) gives `None` with
exactly one per-ticker error message.  The embedding is a total function:
no exception escapes. -/
theorem c4_fetch_error_handling (ds : DataSource) (ticker : String) :
    ((get_historical_data ds ticker).val ≠ none ↔
      (ticker ≠ "" ∧ ∃ rows, ds ticker = .frame rows true ∧
        rows.isEmpty = false)) ∧
    (ticker = "" → get_historical_data ds ticker = ⟨none, [], []⟩) ∧
    (ticker ≠ "" → (get_historical_data ds ticker).val = none →
      (get_historical_data ds ticker).msgs.length = 1) ∧
    (∀ rows, ticker ≠ "" → ds ticker = .frame rows true →
      rows.isEmpty = false →
      get_historical_data ds ticker = ⟨some rows, [ticker], []⟩) := by
  by_cases h : ticker = ""
  · subst h
    simp [get_historical_data]
  · cases hd : ds ticker with
    | raises => simp [get_historical_data, h, hd]
    | frame rows hasAdj =>
      cases hE : rows.isEmpty with
      | true =>
        have hr : rows = [] := List.isEmpty_iff.mp hE
        simp [get_historical_data, h, hd, hE, hr]
      | false =>
        have hr : rows ≠ [] := by
          intro hnil
          rw [hnil] at hE
          simp at hE
        cases hasAdj with
        | true => simp [get_historical_data, h, hd, hE, hr]
        | false => simp [get_historical_data, h, hd, hE]

/-- Witness for C4 at a concrete provider: empty ticker, valid ticker, and
a raising ticker. -/
theorem c4_witness :
    get_historical_data dsA "" = ⟨none, [], []⟩ ∧
    get_historical_data dsA "AAPL" = ⟨some [(0, 1), (1, 2)], ["AAPL"], []⟩ ∧
    (get_historical_data dsA "MSFT").msgs.length = 1 :=
  ⟨(c4_fetch_error_handling dsA "").2.1 rfl,
    (c4_fetch_error_handling dsA "AAPL").2.2.2 [(0, 1), (1, 2)]
      (by decide) rfl rfl,
    (c4_fetch_error_handling dsA "MSFT").2.2.1 (by decide) rfl⟩

/-! Lemmas about `List.lookup` and `mergeInner`. -/

lemma lookup_eq_some_of_mem (l : PriceSeries) (d : Nat) (p : ℝ)
    (hnd : (l.map Prod.fst).Nodup) (hm : (d, p) ∈ l) :
    l.lookup d = some p := by
  induction l with
  | nil => simp at hm
  | cons a t ih =>
    obtain ⟨k, v⟩ := a
    simp only [List.map_cons, List.nodup_cons] at hnd
    rcases List.mem_cons.mp hm with h | h
    · injection h with h1 h2
      subst h1
      subst h2
      simp [List.lookup_cons]
    · have hdk : d ≠ k := by
        intro he
        subst he
        exact hnd.1 (List.mem_map_of_mem Prod.fst h)
      have hbeq : (d == k) = false := beq_false_of_ne hdk
      rw [List.lookup_cons]
      simp only [hbeq]
      exact ih hnd.2 h

lemma mem_of_lookup_eq_some (l : PriceSeries) (d : Nat) (q : ℝ)
    (h : l.lookup d = some q) : (d, q) ∈ l := by
  induction l with
  | nil => simp [List.lookup] at h
  | cons a t ih =>
    obtain ⟨k, v⟩ := a
    rw [List.lookup_cons] at h
    by_cases hdk : d = k
    · subst hdk
      simp only [beq_self_eq_true] at h
      injection h with h1
      rw [← h1]
      exact List.mem_cons_self _ _
    · have hbeq : (d == k) = false := beq_false_of_ne hdk
      simp only [hbeq] at h
      exact List.mem_cons_of_mem _ (ih h)

lemma lookup_isSome_of_mem_keys (l : PriceSeries) (d : Nat)
    (h : d ∈ l.map Prod.fst) : ∃ q, l.lookup d = some q := by
  induction l with
  | nil => simp at h
  | cons a t ih =>
    obtain ⟨k, v⟩ := a
    rw [List.lookup_cons]
    by_cases hdk : d = k
    · subst hdk
      simp
    · have hbeq : (d == k) = false := beq_false_of_ne hdk
      simp only [hbeq]
      apply ih
      simp only [List.map_cons, List.mem_cons] at h
      exact h.resolve_left hdk

lemma mergeInner_mem_parts (s b : PriceSeries) (d : Nat) (p q : ℝ)
    (h : (d, (p, q)) ∈ mergeInner s b) : (d, p) ∈ s ∧ (d, q) ∈ b := by
  unfold mergeInner at h
  rw [List.mem_filterMap] at h
  obtain ⟨row, hrow, heq⟩ := h
  obtain ⟨rk, rv⟩ := row
  rw [Option.map_eq_some'] at heq
  obtain ⟨v, hv, hgv⟩ := heq
  obtain ⟨h1, h2, h3⟩ : rk = d ∧ rv = p ∧ v = q := by
    simpa [Prod.ext_iff] using hgv
  subst h1
  subst h2
  subst h3
  exact ⟨hrow, mem_of_lookup_eq_some b rk v hv⟩

lemma mergeInner_keys_iff (s b : PriceSeries) (d : Nat) :
    d ∈ (mergeInner s b).map Prod.fst ↔
      d ∈ s.map Prod.fst ∧ d ∈ b.map Prod.fst := by
  constructor
  · intro h
    rw [List.mem_map] at h
    obtain ⟨e, he, hfst⟩ := h
    obtain ⟨ek, ev⟩ := e
    obtain ⟨p, q⟩ := ev
    dsimp at hfst
    subst hfst
    have := mergeInner_mem_parts s b ek p q he
    exact ⟨List.mem_map_of_mem Prod.fst this.1, List.mem_map_of_mem Prod.fst this.2⟩
  · rintro ⟨hs, hb⟩
    rw [List.mem_map] at hs
    obtain ⟨e, he, hfst⟩ := hs
    obtain ⟨ek, ev⟩ := e
    dsimp at hfst
    subst hfst
    obtain ⟨q, hq⟩ := lookup_isSome_of_mem_keys b ek hb
    rw [List.mem_map]
    refine ⟨(ek, (ev, q)), ?_, rfl⟩
    unfold mergeInner
    rw [List.mem_filterMap]
    exact ⟨(ek, ev), he, by rw [hq]; rfl⟩

lemma mergeInner_of_lookup (s b : PriceSeries)
    (h : ∀ e ∈ s, b.lookup e.1 = some e.2) :
    mergeInner s b = s.map (fun e => (e.1, (e.2, e.2))) := by
  induction s with
  | nil => rfl
  | cons a t ih =>
    unfold mergeInner
    rw [List.filterMap_cons, h a (List.mem_cons_self a t)]
    simp only [Option.map_some']
    unfold mergeInner at ih
    rw [ih (fun e he => h e (List.mem_cons_of_mem a he))]
    rfl

lemma mergeInner_self (s : PriceSeries) (hnd : (s.map Prod.fst).Nodup) :
    mergeInner s s = s.map (fun e => (e.1, (e.2, e.2))) :=
  mergeInner_of_lookup s s (fun e he =>
    lookup_eq_some_of_mem s e.1 e.2 hnd he)

/-! Lemmas about the least-squares slope. -/

lemma zip_self_eq_map (x : List ℝ) : x.zip x = x.map (fun v => (v, v)) := by
  induction x with
  | nil => rfl
  | cons a t ih => rw [List.zip_cons_cons, ih, List.map_cons]

lemma sumProd_self (x : List ℝ) : sumProd x x = (x.map (fun v => v * v)).sum := by
  unfold sumProd
  rw [zip_self_eq_map, List.map_map]
  rfl

lemma olsDenom_nil : olsDenom [] = 0 := by
  simp [olsDenom]

lemma length_ne_zero_of_olsDenom_ne_zero (x : List ℝ) (h : olsDenom x ≠ 0) :
    x.length ≠ 0 := by
  intro h0
  rw [List.length_eq_zero] at h0
  subst h0
  exact h olsDenom_nil

lemma olsSlope_self (x : List ℝ) (h : olsDenom x ≠ 0) : olsSlope x x = 1 := by
  unfold olsSlope
  rw [sumProd_self]
  have hnum : (x.length : ℝ) * (x.map (fun v => v * v)).sum - x.sum * x.sum =
      olsDenom x := rfl
  rw [hnum]
  exact div_self h

lemma sumProd_right_zero (x y : List ℝ) (h : ∀ v ∈ y, v = 0) :
    sumProd x y = 0 := by
  unfold sumProd
  apply List.sum_eq_zero
  intro u hu
  rw [List.mem_map] at hu
  obtain ⟨pr, hpr, heq⟩ := hu
  obtain ⟨u1, u2⟩ := pr
  have h2 := (List.of_mem_zip hpr).2
  rw [← heq]
  dsimp
  rw [h u2 h2, mul_zero]

lemma olsSlope_right_zero (x y : List ℝ) (h : ∀ v ∈ y, v = 0) :
    olsSlope x y = 0 := by
  unfold olsSlope
  rw [sumProd_right_zero x y h, List.sum_eq_zero h, mul_zero, mul_zero,
    sub_zero, zero_div]

lemma polyfit1_ok (x y : List ℝ) (hx : x.length ≠ 0)
    (hxy : x.length = y.length) :
    polyfit1 x y = .ok (olsSlope x y) := by
  have hcond : ¬(x.length = 0 ∨ x.length ≠ y.length) := by
    push_neg
    exact ⟨hx, hxy⟩
  unfold polyfit1
  rw [if_neg hcond]

lemma logReturns_all_zero (l : List ℝ) (c : ℝ) (hc : c ≠ 0)
    (h : ∀ v ∈ l, v = c) : ∀ u ∈ logReturns l, u = 0 := by
  intro u hu
  unfold logReturns at hu
  rw [List.mem_map] at hu
  obtain ⟨pr, hpr, heq⟩ := hu
  obtain ⟨p1, p2⟩ := pr
  have h12 := List.of_mem_zip hpr
  rw [← heq]
  dsimp
  rw [h p1 h12.1, h p2 (List.mem_of_mem_tail h12.2), div_self hc, Real.log_one]

/-- The non-benchmark regression path of `calculate_beta`, once both fetches
have succeeded: inner-join, log-returns of both columns, `polyfit`. -/
lemma calculate_beta_regression (ds : DataSource) (t : String)
    (s b : PriceSeries) (hts : t ≠ "SPY") (hne : t ≠ "")
    (hds : ds t = .frame s true) (hse : s.isEmpty = false)
    (hspy : ds "SPY" = .frame b true) (hbe : b.isEmpty = false) :
    calculate_beta ds t =
      match polyfit1 (logReturns ((mergeInner s b).map (fun r => r.2.2)))
          (logReturns ((mergeInner s b).map (fun r => r.2.1))) with
      | .error _ => ⟨none, [t, "SPY"],
          ["An error occurred while calculating beta for " ++ t]⟩
      | .ok slope => ⟨some slope, [t, "SPY"], []⟩ := by
  simp only [calculate_beta, if_neg hts,
    get_historical_data_ok ds t s hne hds hse, hspy, hbe]
  cases hP : polyfit1 (logReturns ((mergeInner s b).map (fun r => r.2.2)))
      (logReturns ((mergeInner s b).map (fun r => r.2.1))) with
  | error e => simp [hP]
  | ok slope => simp [hP]

lemma logReturns_spike : logReturns [1, Real.exp 1, 1] = [1, -1] := by
  simp [logReturns, Real.log_exp, Real.log_inv, one_div]

lemma olsDenom_one_negone : olsDenom [(1 : ℝ), -1] = 4 := by
  norm_num [olsDenom]

/-- Claim C6: the regression input of `calculate_beta` is built by
inner-joining the stock and benchmark series on date: a date appears in the
joined series exactly when it appears in both inputs, and every joined row's
values come from the corresponding rows of the two inputs — a date present
in only one series contributes nothing. -/
theorem c6_inner_join_alignment (s b : PriceSeries) (d : Nat) :
    (d ∈ (mergeInner s b).map Prod.fst ↔
      d ∈ s.map Prod.fst ∧ d ∈ b.map Prod.fst) ∧
    (∀ p q : ℝ, (d, (p, q)) ∈ mergeInner s b → (d, p) ∈ s ∧ (d, q) ∈ b) :=
  ⟨mergeInner_keys_iff s b d, fun p q h => mergeInner_mem_parts s b d p q h⟩

/-- Witness for C6 on concrete series with partially overlapping dates. -/
theorem c6_witness :
    (5 : Nat) ∈ (mergeInner s6 b6).map Prod.fst ∧
    ¬ (7 : Nat) ∈ (mergeInner s6 b6).map Prod.fst ∧
    (((1 : Nat), (2 : ℝ)) ∈ s6 ∧ ((1 : Nat), (4 : ℝ)) ∈ b6) := by
  refine ⟨(c6_inner_join_alignment s6 b6 5).1.mpr ⟨by decide, by decide⟩, ?_, ?_⟩
  · intro h
    exact absurd ((c6_inner_join_alignment s6 b6 7).1.mp h).1 (by decide)
  · have hm : ((1 : Nat), ((2 : ℝ), (4 : ℝ))) ∈ mergeInner s6 b6 := by
      have he : mergeInner s6 b6 = [(1, (2, 4)), (5, (3, 6))] := rfl
      rw [he]
      exact List.mem_cons_self _ _
    exact (c6_inner_join_alignment s6 b6 1).2 2 4 hm

/-- Claim C7: feeding the benchmark's own series as both stock and benchmark
through the general regression path (inner join, log-returns, least-squares
fit) yields beta exactly 1.00, matching the hard-coded SPY shortcut.  The
hypotheses require unique dates and a non-degenerate (varying) log-return
series, without which the least-squares slope is not defined. -/
theorem c7_self_regression_unity (ds : DataSource) (t : String)
    (s : PriceSeries) (hts : t ≠ "SPY") (hne : t ≠ "")
    (hds : ds t = .frame s true) (hspy : ds "SPY" = .frame s true)
    (hse : s.isEmpty = false) (hnd : (s.map Prod.fst).Nodup)
    (hden : olsDenom (logReturns (s.map Prod.snd)) ≠ 0) :
    (calculate_beta ds t).val = some 1.00 := by
  have hms : mergeInner s s = s.map (fun e => (e.1, (e.2, e.2))) :=
    mergeInner_self s hnd
  have hcol1 : (mergeInner s s).map (fun r => r.2.1) = s.map Prod.snd := by
    rw [hms, List.map_map]
    rfl
  have hcol2 : (mergeInner s s).map (fun r => r.2.2) = s.map Prod.snd := by
    rw [hms, List.map_map]
    rfl
  have hxlen : (logReturns (s.map Prod.snd)).length ≠ 0 :=
    length_ne_zero_of_olsDenom_ne_zero _ hden
  rw [calculate_beta_regression ds t s s hts hne hds hse hspy hse,
    hcol1, hcol2, polyfit1_ok _ _ hxlen rfl, olsSlope_self _ hden]
  norm_num

/-- Witness for C7: both AAPL and SPY serve the varying series `sE`. -/
theorem c7_witness :
    (olsDenom (logReturns (sE.map Prod.snd)) ≠ 0 ∧
      (sE.map Prod.fst).Nodup) ∧
    (calculate_beta dsE "AAPL").val = some 1.00 := by
  have hlr : logReturns (sE.map Prod.snd) = [1, -1] := by
    have hmap : sE.map Prod.snd = [1, Real.exp 1, 1] := rfl
    rw [hmap, logReturns_spike]
  have hden : olsDenom (logReturns (sE.map Prod.snd)) ≠ 0 := by
    rw [hlr, olsDenom_one_negone]
    norm_num
  exact ⟨⟨hden, by decide⟩,
    c7_self_regression_unity dsE "AAPL" sE (by decide) (by decide) rfl rfl rfl
      (by decide) hden⟩

/-- Claim C8: a constant positive price series has average annual return 0,
and regressed against a benchmark with varying (non-degenerate) returns its
beta slope is 0. -/
theorem c8_constant_series_zero :
    (∀ (ds : DataSource) (t : String) (s : PriceSeries) (c : ℝ),
      t ≠ "" → ds t = .frame s true → 2 ≤ s.length →
      (∀ e ∈ s, e.2 = c) → 0 < c →
      (calculate_average_annual_return ds t).val = some (some 0)) ∧
    (∀ (ds : DataSource) (t : String) (s b : PriceSeries) (c : ℝ),
      t ≠ "SPY" → t ≠ "" → ds t = .frame s true → s.isEmpty = false →
      (∀ e ∈ s, e.2 = c) → 0 < c →
      ds "SPY" = .frame b true → b.isEmpty = false →
      olsDenom (logReturns ((mergeInner s b).map (fun r => r.2.2))) ≠ 0 →
      (calculate_beta ds t).val = some 0) := by
  constructor
  · intro ds t s c hne hds hlen hc hcpos
    have hse : s.isEmpty = false := by
      cases s with
      | nil => simp at hlen
      | cons a t2 => rfl
    rw [calculate_average_annual_return_ok ds t s hne hds hse]
    have hzero : ∀ u ∈ logReturns (s.map Prod.snd), u = 0 :=
      logReturns_all_zero _ c (ne_of_gt hcpos) (by
        intro v hv
        rw [List.mem_map] at hv
        obtain ⟨e, he, rfl⟩ := hv
        exact hc e he)
    have hne2 : logReturns (s.map Prod.snd) ≠ [] := by
      intro h
      have hL := logReturns_length (s.map Prod.snd)
      rw [h, List.length_map] at hL
      simp at hL
      omega
    rw [seriesMean_of_ne_nil _ hne2, List.sum_eq_zero hzero]
    simp
  · intro ds t s b c hts hne hds hse hc hcpos hspy hbe hden
    rw [calculate_beta_regression ds t s b hts hne hds hse hspy hbe]
    have hxlen : (logReturns ((mergeInner s b).map (fun r => r.2.2))).length ≠ 0 :=
      length_ne_zero_of_olsDenom_ne_zero _ hden
    have hxy : (logReturns ((mergeInner s b).map (fun r => r.2.2))).length =
        (logReturns ((mergeInner s b).map (fun r => r.2.1))).length := by
      rw [logReturns_length, logReturns_length, List.length_map, List.length_map]
    have hy0 : ∀ v ∈ logReturns ((mergeInner s b).map (fun r => r.2.1)), v = 0 := by
      apply logReturns_all_zero _ c (ne_of_gt hcpos)
      intro v hv
      rw [List.mem_map] at hv
      obtain ⟨r, hr, rfl⟩ := hv
      obtain ⟨rk, rv⟩ := r
      obtain ⟨rp, rq⟩ := rv
      exact hc _ (mergeInner_mem_parts s b rk rp rq hr).1
    rw [polyfit1_ok _ _ hxlen hxy, olsSlope_right_zero _ _ hy0]

/-- Witness for C8: constant AAPL series against the varying SPY series. -/
theorem c8_witness :
    ((∀ e ∈ sConst, e.2 = (5 : ℝ)) ∧ (0 : ℝ) < 5) ∧
    (calculate_average_annual_return dsK "AAPL").val = some (some 0) ∧
    (calculate_beta dsK "AAPL").val = some 0 := by
  have hc : ∀ e ∈ sConst, e.2 = (5 : ℝ) := by
    intro e he
    simp only [sConst, List.mem_cons, List.not_mem_nil, or_false] at he
    rcases he with h | h | h <;> rw [h]
  have hden : olsDenom (logReturns ((mergeInner sConst sE).map
      (fun r => r.2.2))) ≠ 0 := by
    have hcol : (mergeInner sConst sE).map (fun r => r.2.2) =
        [1, Real.exp 1, 1] := rfl
    rw [hcol, logReturns_spike, olsDenom_one_negone]
    norm_num
  exact ⟨⟨hc, by norm_num⟩,
    c8_constant_series_zero.1 dsK "AAPL" sConst 5 (by decide) rfl (by decide)
      hc (by norm_num),
    c8_constant_series_zero.2 dsK "AAPL" sConst sE 5 (by decide) (by decide)
      rfl rfl hc (by norm_num) rfl rfl hden⟩

/-- Claim C10: for a non-benchmark ticker whose fetched series shares fewer
than 2 dates with the fetched benchmark series, the aligned log-return
sequences are empty, the regression raises, and `calculate_beta` catches it,
reports the generic per-ticker beta error message, and returns `None`. -/
theorem c10_too_few_aligned_points (ds : DataSource) (t : String)
    (s b : PriceSeries) (hts : t ≠ "SPY") (hne : t ≠ "")
    (hds : ds t = .frame s true) (hse : s.isEmpty = false)
    (hspy : ds "SPY" = .frame b true) (hbe : b.isEmpty = false)
    (hm : (mergeInner s b).length < 2) :
    (calculate_beta ds t).val = none ∧
    (calculate_beta ds t).msgs =
      ["An error occurred while calculating beta for " ++ t] := by
  rw [calculate_beta_regression ds t s b hts hne hds hse hspy hbe]
  have hx : logReturns ((mergeInner s b).map (fun r => r.2.2)) = [] := by
    have hL := logReturns_length ((mergeInner s b).map (fun r => r.2.2))
    rw [List.length_map] at hL
    exact List.length_eq_zero.mp (by omega)
  rw [hx]
  simp [polyfit1]

/-- Witness for C10: AAPL and SPY series with disjoint dates. -/
theorem c10_witness :
    (mergeInner [(0, 1), (1, 2)] [(5, 3), (6, 4)]).length < 2 ∧
    (calculate_beta dsD "AAPL").val = none ∧
    (calculate_beta dsD "AAPL").msgs =
      ["An error occurred while calculating beta for AAPL"] := by
  have h := c10_too_few_aligned_points dsD "AAPL" [(0, 1), (1, 2)]
    [(5, 3), (6, 4)] (by decide) (by decide) rfl rfl rfl rfl (by decide)
  refine ⟨by decide, h.1, ?_⟩
  rw [h.2]
  rfl

/-! Run-level lemmas. -/

lemma get_historical_data_calls (ds : DataSource) (t : String) (h : t ≠ "") :
    (get_historical_data ds t).calls = [t] := by
  unfold get_historical_data
  rw [if_neg h]
  cases ds t with
  | raises => rfl
  | frame rows hasAdj =>
    cases hE : rows.isEmpty with
    | true => simp [hE]
    | false => cases hasAdj <;> simp [hE]

lemma calculate_average_annual_return_eff (ds : DataSource) (t : String)
    (s : PriceSeries) (hne : t ≠ "") (hds : ds t = .frame s true)
    (hse : s.isEmpty = false) :
    calculate_average_annual_return ds t =
      ⟨some ((seriesMean (logReturns (s.map Prod.snd))).map
        (fun m => m * 252 * 100)), [t], []⟩ := by
  simp [calculate_average_annual_return,
    get_historical_data_ok ds t s hne hds hse]

lemma chartCond_false_iff (betas : List ℝ) (valid : List String) :
    chartCond betas valid = false ↔ betas = [] ∧ "SPY" ∉ valid := by
  unfold chartCond
  cases betas with
  | nil => simp [List.elem_iff]
  | cons a t => simp

/-- Claim C9 (amended): the chart is skipped, with the "no valid tickers"
message, exactly when the run accumulated no non-benchmark beta and the
benchmark is not among the valid tickers; whenever the chart is drawn it is
drawn over exactly the valid tickers. -/
theorem c9_chart_dispatch_amended (ds : DataSource) (inputs : List String) :
    ((runApp ds inputs).chart = none ↔
      (runApp ds inputs).individualBetas = [] ∧
      "SPY" ∉ (runApp ds inputs).validTickers) ∧
    ((runApp ds inputs).chart ≠ none →
      (runApp ds inputs).chart = some ((runApp ds inputs).validTickers)) := by
  unfold runApp
  set r := (collectTickers inputs).foldl (processTicker ds)
    ⟨[], [], [], [], [], [], none⟩ with hr
  by_cases hC : chartCond r.individualBetas r.validTickers = true
  · rw [if_pos hC]
    dsimp only
    constructor
    · constructor
      · intro h
        exact absurd h (by simp)
      · intro h
        have : chartCond r.individualBetas r.validTickers = false :=
          (chartCond_false_iff _ _).mpr h
        rw [hC] at this
        exact absurd this (by simp)
    · intro _
      rfl
  · have hC' : chartCond r.individualBetas r.validTickers = false := by
      cases h : chartCond r.individualBetas r.validTickers with
      | true => exact absurd h hC
      | false => rfl
    rw [if_neg hC]
    dsimp only
    obtain ⟨h1, h2⟩ := (chartCond_false_iff _ _).mp hC'
    constructor
    · rw [← hr]
      simp [h1, h2]
    · intro h
      exact absurd rfl h

/-- Counterexample to C9 as stated: with every download raising and the
single entered ticker "SPY", the benchmark is entered and produces a beta
(the 1.00 shortcut), yet the run shows the "no valid tickers" empty state
instead of invoking the chart renderer. -/
theorem c9_counterexample :
    "SPY" ∈ collectTickers ["SPY"] ∧
    (calculate_beta dsX9 "SPY").val = some 1.00 ∧
    (runApp dsX9 ["SPY"]).chart = none :=
  ⟨by decide, rfl, rfl⟩

/-- Witness for the amended C9 at a concrete run that skips the chart. -/
theorem c9_witness :
    (runApp dsX9 ["SPY"]).individualBetas = [] ∧
    "SPY" ∉ (runApp dsX9 ["SPY"]).validTickers ∧
    (runApp dsX9 ["SPY"]).chart = none :=
  ⟨rfl, by decide,
    (c9_chart_dispatch_amended dsX9 ["SPY"]).1.mpr ⟨rfl, by decide⟩⟩

/-- Claim C5 (amended): in a run on `["AAPL", ""]` with both AAPL and SPY
fetchable and at least two shared dates, the blank entry triggers no fetch
and each fetcher invocation makes exactly one download, but AAPL is
downloaded three times over the run — by the return calculation, the beta
calculation, and the chart — with one more download of SPY by the beta
calculation. -/
theorem c5_fetch_counts_amended (ds : DataSource) (sa sb : PriceSeries)
    (ha : ds "AAPL" = .frame sa true) (hsa : sa.isEmpty = false)
    (hb : ds "SPY" = .frame sb true) (hsb : sb.isEmpty = false)
    (hm : 2 ≤ (mergeInner sa sb).length) :
    (runApp ds ["AAPL", ""]).calls = ["AAPL", "AAPL", "SPY", "AAPL"] ∧
    (∀ t2, t2 ≠ "" → (get_historical_data ds t2).calls = [t2]) ∧
    (get_historical_data ds "").calls = [] := by
  refine ⟨?_, fun t2 h => get_historical_data_calls ds t2 h,
    by simp [get_historical_data]⟩
  have hxlen : (logReturns ((mergeInner sa sb).map (fun r => r.2.2))).length ≠ 0 := by
    rw [logReturns_length, List.length_map]
    omega
  have hxy : (logReturns ((mergeInner sa sb).map (fun r => r.2.2))).length =
      (logReturns ((mergeInner sa sb).map (fun r => r.2.1))).length := by
    rw [logReturns_length, logReturns_length, List.length_map, List.length_map]
  have hAAPLSPY : ("AAPL" : String) ≠ "SPY" := by decide
  have hAAPLne : ("AAPL" : String) ≠ "" := by decide
  have hbeta : calculate_beta ds "AAPL" =
      ⟨some (olsSlope (logReturns ((mergeInner sa sb).map (fun r => r.2.2)))
        (logReturns ((mergeInner sa sb).map (fun r => r.2.1)))),
       ["AAPL", "SPY"], []⟩ := by
    rw [calculate_beta_regression ds "AAPL" sa sb hAAPLSPY hAAPLne ha hsa hb hsb,
      polyfit1_ok _ _ hxlen hxy]
  have hret := calculate_average_annual_return_eff ds "AAPL" sa hAAPLne ha hsa
  have hgh := get_historical_data_ok ds "AAPL" sa hAAPLne ha hsa
  have hstep : processTicker ds ⟨[], [], [], [], [], [], none⟩ "AAPL" =
      ⟨["AAPL"],
       [(seriesMean (logReturns (sa.map Prod.snd))).map (fun m => m * 252 * 100)],
       [olsSlope (logReturns ((mergeInner sa sb).map (fun r => r.2.2)))
         (logReturns ((mergeInner sa sb).map (fun r => r.2.1)))],
       ["AAPL", "AAPL", "SPY"], [], ["Beta for AAPL is: "], none⟩ := by
    unfold processTicker
    rw [hret, hbeta]
    rfl
  have hviz : visualize_returns ds ["AAPL"] = ⟨["AAPL"], ["AAPL"], []⟩ := by
    unfold visualize_returns
    rw [List.foldl_cons, List.foldl_nil]
    simp only [hgh]
    rfl
  have hct : collectTickers ["AAPL", ""] = ["AAPL"] := by decide
  have hcc : chartCond
      [olsSlope (logReturns ((mergeInner sa sb).map (fun r => r.2.2)))
        (logReturns ((mergeInner sa sb).map (fun r => r.2.1)))] ["AAPL"] = true := rfl
  unfold runApp
  rw [hct]
  simp only [List.foldl_cons, List.foldl_nil, hstep, hcc, if_true, hviz]
  rfl

/-- Counterexample to C5 as stated: with AAPL and SPY both fetchable, the
run on `["AAPL", ""]` downloads AAPL three times (return calculation, beta
calculation, chart), not exactly once. -/
theorem c5_counterexample :
    (runApp dsX5 ["AAPL", ""]).calls = ["AAPL", "AAPL", "SPY", "AAPL"] ∧
    (runApp dsX5 ["AAPL", ""]).calls.count "AAPL" ≠ 1 := by
  have h : (runApp dsX5 ["AAPL", ""]).calls = ["AAPL", "AAPL", "SPY", "AAPL"] :=
    rfl
  refine ⟨h, ?_⟩
  rw [h]
  decide

/-- Witness for the amended C5 at the concrete provider `dsX5`. -/
theorem c5_witness :
    (runApp dsX5 ["AAPL", ""]).calls = ["AAPL", "AAPL", "SPY", "AAPL"] ∧
    (get_historical_data dsX5 "MSFT").calls = ["MSFT"] ∧
    (get_historical_data dsX5 "").calls = [] := by
  have h := c5_fetch_counts_amended dsX5 [(0, 2), (1, 4), (2, 8)]
    [(0, 10), (1, 11), (2, 12)] rfl rfl rfl rfl (by decide)
  exact ⟨h.1, h.2.1 "MSFT" (by decide), h.2.2⟩

/-- Witness for C1 at a concrete provider. -/
theorem c1_witness :
    (calculate_beta dsA "SPY").val = some 1.00 ∧
    (calculate_beta dsA "SPY").calls = [] :=
  ⟨(c1_benchmark_beta_shortcut dsA).1, (c1_benchmark_beta_shortcut dsA).2.1⟩
